import Mathlib

/-!
Shallow embedding of the Changelly connector core of this repository:
`hummingbot/connector/exchange/changelly/changelly_auth.py` (the signer) and
`hummingbot/connector/exchange/changelly/changelly_api_user_stream_data_source.py`
(the user-stream connection supervisor and message router).

Cryptographic primitives (`hmac.new(..., hashlib.sha256).hexdigest()` and
`base64.b64encode`) are external library calls; they are passed in as abstract
string functions, so every theorem about the signer holds for the real
primitives by instantiation.  Wall-clock reads (`time.time()`, `self._time()`)
are passed in as explicit timestamp arguments.
-/

namespace Changelly

/-- Model of Python `"".join(message)` / `":".join(data)` for an explicit
separator: the empty list gives `""`, a singleton gives the element, and
otherwise the separator is interleaved. -/
def joinWith (sep : String) : List String → String
  | [] => ""
  | [s] => s
  | s :: rest => s ++ sep ++ joinWith sep rest

/-- `ChangellyAuth._generate_signature` (changelly_auth.py lines 74-76):
`hmac.new(self.secret_key.encode(), "".join(message).encode(), hashlib.sha256).hexdigest()`.
`hmacSha256Hex secret msg` abstracts the lowercase hexadecimal
HMAC-SHA256 digest of `msg` under key `secret`. -/
def generate_signature (hmacSha256Hex : String → String → String)
    (secretKey : String) (message : List String) : String :=
  hmacSha256Hex secretKey (joinWith "" message)

/-- `ChangellyAuth.header_for_authentication` (changelly_auth.py lines 56-72).
Arguments `method`, `path` and `query` are the request's HTTP method name
(`str(request.method)`), `urlsplit(request.url).path` and
`urlsplit(request.url).query` (the empty string when the URL has no query,
exactly as `urlsplit` yields).  `body` is `request.data` (`none` models Python
`None`).  `b64encode` abstracts `b64encode(·.encode("utf8")).decode("utf8")`.
Returns the produced header as a (name, value) pair. -/
def header_for_authentication (hmacSha256Hex : String → String → String)
    (b64encode : String → String) (apiKey secretKey : String)
    (method path query : String) (body : Option String) (timestampMs : Nat) :
    String × String :=
  let message : List String := [method, path]
  let message := if query ≠ "" then message ++ ["?", query] else message
  let message :=
    match body with
    | some d => if d ≠ "" then message ++ [d] else message
    | none => message
  let timestamp := toString timestampMs
  let message := message ++ [timestamp]
  let signature := generate_signature hmacSha256Hex secretKey message
  let creds := [apiKey, signature, timestamp]
  let base64Encoded := b64encode (joinWith ":" creds)
  ("Authorization", "HS256 " ++ base64Encoded)

/-- The `params` object of the websocket login payload
(`ChangellyAuth.ws_authenticate`). -/
structure LoginParams where
  type : String
  api_key : String
  timestamp : Nat
  window : Nat
  signature : String
deriving DecidableEq

/-- The websocket login payload returned by `ChangellyAuth.ws_authenticate`. -/
structure LoginMessage where
  method : String
  params : LoginParams
deriving DecidableEq

/-- `ChangellyAuth.ws_authenticate` (changelly_auth.py lines 34-54).
`timestampMs` is the value of `int(time.time() * 1e3)` at call time.  The
source guards the window concatenation with Python truthiness (`if window:`),
mirrored here by the `≠ 0` test. -/
def ws_authenticate (hmacSha256Hex : String → String → String)
    (apiKey secretKey : String) (timestampMs : Nat) : LoginMessage :=
  let window : Nat := 10000
  let message := toString timestampMs
  let message := if window ≠ 0 then message ++ toString window else message
  let sign := hmacSha256Hex secretKey message
  { method := "login"
    params :=
      { type := "HS256"
        api_key := apiKey
        timestamp := timestampMs
        window := window
        signature := sign } }

/-- The data of one received websocket frame (`ws_response.data` in
`_process_ws_messages`), as far as the router inspects it: the optional
`"method"` key and the optional `"params"` key.  `α` is the (venue-shaped)
type of one element of the params list. -/
structure WSFrame (α : Type) where
  method : Option String
  params : Option (List α)
deriving DecidableEq

/-- `ChangellyAPIUserStreamDataSource._handle_spot_order` (lines 110-116):
`for order in data: output_queue.put_nowait(self._convert_to_internal_order_format(order))`.
The normalizer may raise (modelled by `Except`); the source loop has no
try/except around it, so a raising element stops the loop: the returned pair
is (the values pushed to the queue before the failure, in order; the
propagating exception if one was raised). -/
def handle_spot_order (convert : α → Except String β) :
    List α → List β × Option String
  | [] => ([], none)
  | x :: rest =>
    match convert x with
    | Except.error e => ([], some e)
    | Except.ok v =>
      let r := handle_spot_order convert rest
      (v :: r.1, r.2)

/-- `ChangellyAPIUserStreamDataSource._handle_spot_balance` (lines 125-134):
identical loop shape to `_handle_spot_order`, using the balance normalizer. -/
def handle_spot_balance (convert : α → Except String β) :
    List α → List β × Option String
  | [] => ([], none)
  | x :: rest =>
    match convert x with
    | Except.error e => ([], some e)
    | Except.ok v =>
      let r := handle_spot_balance convert rest
      (v :: r.1, r.2)

/-- The body of one iteration of `_process_ws_messages` (lines 94-108) on one
received frame.  Mirrors the source exactly: if `"method" in data` fails the
frame is ignored; otherwise `params = data["params"]` is evaluated BEFORE the
method dispatch, so a frame bearing a method but no params raises `KeyError`;
then `spot_order`/`spot_orders` frames go to the order handler, `spot_balance`
frames to the balance handler, and every other method falls through with no
action.  Result: (values pushed to the output queue, in order; the propagating
exception if one was raised). -/
def process_ws_message (convertOrder convertBalance : α → Except String β)
    (data : WSFrame α) : List β × Option String :=
  match data.method with
  | none => ([], none)
  | some m =>
    match data.params with
    | none => ([], some "KeyError")
    | some params =>
      if m = "spot_order" ∨ m = "spot_orders" then
        handle_spot_order convertOrder params
      else if m = "spot_balance" then
        handle_spot_balance convertBalance params
      else ([], none)

/-- `_convert_to_internal_order_format` (lines 118-123): the body is a bare
`pass`, i.e. it unconditionally returns Python `None` and never raises. -/
def convert_to_internal_order_format (order : α) : Except String (Option β) :=
  Except.ok none

/-- `_convert_to_internal_balance_format` (lines 136-141): the body is a bare
`pass`, i.e. it unconditionally returns Python `None` and never raises. -/
def convert_to_internal_balance_format (balance : α) : Except String (Option β) :=
  Except.ok none

/-- `SPOT_STREAM_ID = 21` (class attribute, line 19 of the data source). -/
def SPOT_STREAM_ID : Nat := 21

/-- `HEARTBEAT_TIME_INTERVAL = 30.0` (class attribute, line 18). -/
def HEARTBEAT_TIME_INTERVAL : Nat := 30

/-- Modelled from the spec: `CONSTANTS.WS_HEARTBEAT_TIME_INTERVAL` comes from
`changelly_constants.py`, which is not among the sources; the spec fixes the
heartbeat deadline at `HEARTBEAT_INTERVAL` seconds (30s). -/
def WS_HEARTBEAT_TIME_INTERVAL : Nat := 30

/-- Modelled from the spec: `CONSTANTS.SPOT_SUBSCRIBE` comes from
`changelly_constants.py`, which is not among the sources; the spec gives the
subscribe frame as `{"method":"spot_subscribe","params":{},"id":<int>}`. -/
def SPOT_SUBSCRIBE : String := "spot_subscribe"

/-- The fixed reconnect delay: `await self._sleep(5)` (line 86). -/
def RECONNECT_DELAY : Nat := 5

/-- One subscribe frame as built by `_subscribe_channels` (line 90):
`{"method": CONSTANTS.SPOT_SUBSCRIBE, "params": {}, "id": self.SPOT_STREAM_ID}`.
The `params` value is always the empty object and is not carried. -/
structure SubscribeFrame where
  method : String
  id : Nat
deriving DecidableEq

/-- `ChangellyAPIUserStreamDataSource._subscribe_channels` (lines 88-92): one
subscribe frame is sent per configured trading pair, each built with the same
fixed `SPOT_STREAM_ID`; the returned list holds the sent frames in order. -/
def subscribe_channels (tradingPairs : List String) : List SubscribeFrame :=
  tradingPairs.map fun _ => { method := SPOT_SUBSCRIBE, id := SPOT_STREAM_ID }

/-- Exception state carried through the `finally` block of
`listen_for_user_stream`: either no exception is in flight (the
`except Exception` handler swallowed the error, or there was none), or a
`CancelledError` was re-raised by `except asyncio.CancelledError: raise` and
resumes propagating after the `finally` block finishes. -/
inductive Pending
  | nothing
  | cancel
deriving DecidableEq

/-- How `listen_for_user_stream` can exit: only by a propagating
`CancelledError`, or by an exception escaping the `finally` block itself. -/
inductive ExitReason
  | cancelled
  | error
deriving DecidableEq

/-- Control location inside `listen_for_user_stream` (lines 61-86), one per
awaited operation: `getAssistant` (line 64), `connect` (line 65),
`authenticate` (line 66, sending the login frame), `frameLoop` (lines 68-78,
the `asyncio.wait_for(_process_ws_messages, heartbeat timeout)` race),
`cleanup` (line 85, `ws and await ws.disconnect()`), `sleepDelay` (line 86,
`await self._sleep(5)`), and `done` (the coroutine has exited). -/
inductive Phase
  | getAssistant
  | connect
  | authenticate
  | frameLoop
  | cleanup (p : Pending)
  | sleepDelay (p : Pending)
  | done (r : ExitReason)
deriving DecidableEq

/-- The result the environment delivers for the currently awaited operation:
normal completion, an ordinary (non-cancellation) exception, expiry of the
`asyncio.wait_for` heartbeat deadline (`asyncio.TimeoutError`), or delivery of
`asyncio.CancelledError`. -/
inductive Outcome
  | ok
  | err
  | timeout
  | cancelled
deriving DecidableEq

/-- Observable actions of the supervisor, in the order they happen:
`connected h` — `await ws.connect(...)` succeeded on handle `h`;
`sentLogin h` — `await self._authenticate_connection(ws)` sent the login frame;
`sentSubscribe h pair` — a subscribe frame for `pair` was sent (vocabulary for
what `_subscribe_channels` would do; see the theorems for whether the
supervisor ever emits it); `disconnected h` — `await ws.disconnect()` ran;
`slept n` — `await self._sleep(n)` completed. -/
inductive SupEvent
  | connected (h : Nat)
  | sentLogin (h : Nat)
  | sentSubscribe (h : Nat) (pair : String)
  | disconnected (h : Nat)
  | slept (seconds : Nat)
deriving DecidableEq

/-- The mutable state of one `ChangellyAPIUserStreamDataSource` together with
the local state of its `listen_for_user_stream` coroutine.  `ws` is the local
variable of the loop (line 61/64); `wsCache` is the instance field
`self._ws_assistant` read and written by `_get_ws_assistant` (lines 150-156);
`nextHandle` numbers the instances the factory would hand out, so two handles
are the same instance iff they carry the same number; `lastSent` is
`self._last_ws_message_sent_timestamp`; `lastRecv` is `self._last_recv_time`;
`events` is the trace of observable actions so far. -/
structure SupState where
  phase : Phase
  ws : Option Nat
  wsCache : Option Nat
  nextHandle : Nat
  lastSent : Nat
  lastRecv : Rat
  tradingPairs : List String
  events : List SupEvent
deriving DecidableEq

/-- `ChangellyAPIUserStreamDataSource.__init__` (lines 23-36) followed by
entering `listen_for_user_stream`: `self._trading_pairs = trading_pairs or []`
(Python `or` maps `None` to `[]`), `self._last_recv_time = 0.0`, `ws = None`
(line 61), and control at the first awaited operation of the loop body.
The base-class constructor invoked by `super().__init__()` is not among the
sources; per the spec's lifecycle (a Transport Handle exists only from the
start of a connection cycle) the cached assistant starts empty. -/
def mkDataSource (tradingPairs : Option (List String)) : SupState :=
  { phase := Phase.getAssistant
    ws := none
    wsCache := none
    nextHandle := 0
    lastSent := 0
    lastRecv := 0
    tradingPairs := match tradingPairs with | some l => l | none => []
    events := [] }

/-- `seconds_until_next_ping` (lines 70-72):
`CONSTANTS.WS_HEARTBEAT_TIME_INTERVAL - (self._time() - self._last_ws_message_sent_timestamp)`. -/
def seconds_until_next_ping (s : SupState) (now : Nat) : Int :=
  (WS_HEARTBEAT_TIME_INTERVAL : Int) - ((now : Int) - (s.lastSent : Int))

/-- One step of `listen_for_user_stream` (lines 61-86): the environment
resolves the operation awaited at the current phase with outcome `o`, reading
the clock as `now` wherever the body calls `self._time()`.

Faithfulness notes, keyed to the source:
* `getAssistant .ok` is `_get_ws_assistant` (lines 150-156): it returns the
  cached `self._ws_assistant` when present and asks the factory for a fresh
  instance only when the cache is `None`; nothing in the module ever clears
  the cache.  On a failing `await` the local `ws` keeps its previous value.
* a non-cancellation exception anywhere in the `try` body is caught by
  `except Exception` (line 81), logged, and control falls into `finally` with
  no exception in flight; `except asyncio.CancelledError: raise` (lines 79-80)
  instead re-raises, so control falls into `finally` with the cancellation
  still propagating.
* `asyncio.TimeoutError` inside the frame loop is caught by the inner handler
  (lines 76-78), which only records a fresh outbound-activity timestamp; at
  any other phase a `TimeoutError` is an ordinary exception.
* `cleanup` is `ws and await ws.disconnect()` (line 85): when `ws` is `None`
  the `and` short-circuits — nothing is awaited, nothing can fail.  An
  exception raised inside the `finally` block replaces whatever was in flight
  and escapes the loop (`done .error`), as in Python.
* `sleepDelay` is `await self._sleep(5)` (line 86), run unconditionally by the
  `finally` block; when it completes with a cancellation pending, the
  `CancelledError` resumes propagating and the coroutine exits; with nothing
  pending the `while True` loop re-enters at line 64. -/
def listenStep (s : SupState) (o : Outcome) (now : Nat) : SupState :=
  match s.phase, o with
  | Phase.getAssistant, Outcome.ok =>
    match s.wsCache with
    | some h => { s with phase := Phase.connect, ws := some h }
    | none =>
      { s with phase := Phase.connect
               ws := some s.nextHandle
               wsCache := some s.nextHandle
               nextHandle := s.nextHandle + 1 }
  | Phase.getAssistant, Outcome.err => { s with phase := Phase.cleanup Pending.nothing }
  | Phase.getAssistant, Outcome.timeout => { s with phase := Phase.cleanup Pending.nothing }
  | Phase.getAssistant, Outcome.cancelled => { s with phase := Phase.cleanup Pending.cancel }
  | Phase.connect, Outcome.ok =>
    { s with phase := Phase.authenticate
             events := s.events ++ [SupEvent.connected (s.ws.getD 0)] }
  | Phase.connect, Outcome.err => { s with phase := Phase.cleanup Pending.nothing }
  | Phase.connect, Outcome.timeout => { s with phase := Phase.cleanup Pending.nothing }
  | Phase.connect, Outcome.cancelled => { s with phase := Phase.cleanup Pending.cancel }
  | Phase.authenticate, Outcome.ok =>
    { s with phase := Phase.frameLoop
             lastSent := now
             events := s.events ++ [SupEvent.sentLogin (s.ws.getD 0)] }
  | Phase.authenticate, Outcome.err => { s with phase := Phase.cleanup Pending.nothing }
  | Phase.authenticate, Outcome.timeout => { s with phase := Phase.cleanup Pending.nothing }
  | Phase.authenticate, Outcome.cancelled => { s with phase := Phase.cleanup Pending.cancel }
  | Phase.frameLoop, Outcome.ok => s
  | Phase.frameLoop, Outcome.timeout => { s with lastSent := now }
  | Phase.frameLoop, Outcome.cancelled => { s with phase := Phase.cleanup Pending.cancel }
  | Phase.frameLoop, Outcome.err => { s with phase := Phase.cleanup Pending.nothing }
  | Phase.cleanup p, o =>
    match s.ws with
    | none => { s with phase := Phase.sleepDelay p }
    | some h =>
      match o with
      | Outcome.cancelled => { s with phase := Phase.done ExitReason.cancelled }
      | Outcome.err => { s with phase := Phase.done ExitReason.error }
      | Outcome.ok =>
        { s with phase := Phase.sleepDelay p
                 events := s.events ++ [SupEvent.disconnected h] }
      | Outcome.timeout =>
        { s with phase := Phase.sleepDelay p
                 events := s.events ++ [SupEvent.disconnected h] }
  | Phase.sleepDelay p, o =>
    match o with
    | Outcome.cancelled => { s with phase := Phase.done ExitReason.cancelled }
    | Outcome.err => { s with phase := Phase.done ExitReason.error }
    | _ =>
      match p with
      | Pending.nothing =>
        { s with phase := Phase.getAssistant
                 events := s.events ++ [SupEvent.slept RECONNECT_DELAY] }
      | Pending.cancel =>
        { s with phase := Phase.done ExitReason.cancelled
                 events := s.events ++ [SupEvent.slept RECONNECT_DELAY] }
  | Phase.done _, _ => s

/-- Run `listenStep` over a list of (outcome, clock reading) pairs. -/
def listenRun (s : SupState) : List (Outcome × Nat) → SupState
  | [] => s
  | (o, t) :: rest => listenRun (listenStep s o t) rest

/-- `self.last_recv_time` (lines 158-162): returns `self._last_recv_time`. -/
def last_recv_time (s : SupState) : Rat :=
  s.lastRecv

/-- Whether the coroutine has exited. -/
def isDone : Phase → Bool
  | Phase.done _ => true
  | _ => false

/-- Outcomes under which one step cannot exit the loop: anything but a
cancellation, and (at the two `finally` operations, which in the source are an
idempotent disconnect and a plain sleep) also not an exception there. -/
def nonTermOutcome (s : SupState) (o : Outcome) : Bool :=
  match o with
  | Outcome.cancelled => false
  | Outcome.err =>
    match s.phase with
    | Phase.cleanup _ => false
    | Phase.sleepDelay _ => false
    | _ => true
  | _ => true

/-- A trace all of whose outcomes are non-terminating for the state at which
they are delivered. -/
def okTrace : SupState → List (Outcome × Nat) → Bool
  | _, [] => true
  | s, (o, t) :: rest => nonTermOutcome s o && okTrace (listenStep s o t) rest

/-- Phases on the cancellation path: a `CancelledError` is in flight through
the `finally` block, or the coroutine has exited.  From these phases the loop
body is never re-entered. -/
def cancelTerminal : Phase → Bool
  | Phase.cleanup Pending.cancel => true
  | Phase.sleepDelay Pending.cancel => true
  | Phase.done _ => true
  | _ => false

/-- Phases at which the supervisor loop is still running with no cancellation
in flight: neither exited, nor inside the `finally` block with a re-raised
`CancelledError`. -/
def inLoop : Phase → Bool
  | Phase.done _ => false
  | Phase.cleanup Pending.cancel => false
  | Phase.sleepDelay Pending.cancel => false
  | _ => true

/-- Invariant of every reachable supervisor state: the factory has been asked
for at most one websocket assistant (`_get_ws_assistant` creates one only when
`self._ws_assistant` is `None`, and nothing ever clears the cache), and every
handle that was cached, held or connected is that single instance `0`. -/
def handleInv (s : SupState) : Prop :=
  s.nextHandle ≤ 1
  ∧ (s.wsCache = none → s.nextHandle = 0)
  ∧ (∀ h, s.wsCache = some h → h = 0)
  ∧ (∀ h, s.ws = some h → h = 0)
  ∧ (∀ h, SupEvent.connected h ∈ s.events → h = 0)

/-! ## Helper lemmas -/

theorem str_append_assoc (a b c : String) : a ++ b ++ c = a ++ (b ++ c) := by
  apply String.ext
  simp [String.data_append, List.append_assoc]

theorem handle_spot_order_map (f : α → β) (l : List α) :
    handle_spot_order (fun x => Except.ok (f x)) l = (l.map f, none) := by
  induction l with
  | nil => rfl
  | cons x rest ih => simp [handle_spot_order, ih]

theorem handle_spot_balance_map (f : α → β) (l : List α) :
    handle_spot_balance (fun x => Except.ok (f x)) l = (l.map f, none) := by
  induction l with
  | nil => rfl
  | cons x rest ih => simp [handle_spot_balance, ih]

theorem handle_spot_balance_split (convert : α → Except String β) (g : α → β)
    (l1 l2 : List α) (x : α) (e : String)
    (h1 : ∀ y ∈ l1, convert y = Except.ok (g y))
    (hx : convert x = Except.error e) :
    handle_spot_balance convert (l1 ++ x :: l2) = (l1.map g, some e) := by
  induction l1 with
  | nil => simp [handle_spot_balance, hx]
  | cons y rest ih =>
    have hy := h1 y (by simp)
    have hrest : ∀ z ∈ rest, convert z = Except.ok (g z) :=
      fun z hz => h1 z (by simp [hz])
    simp [handle_spot_balance, hy, ih hrest]

theorem inLoop_not_done (ph : Phase) (h : inLoop ph = true) :
    isDone ph = false := by
  rcases ph with _ | _ | _ | _ | p | p | r <;> (try cases p) <;>
    simp_all [inLoop, isDone]

set_option maxHeartbeats 1000000 in
theorem listenStep_inLoop (s : SupState) (o : Outcome) (now : Nat)
    (hs : inLoop s.phase = true) (ho : nonTermOutcome s o = true) :
    inLoop (listenStep s o now).phase = true := by
  rcases s with ⟨ph, ws, wc, nh, ls, lr, tp, ev⟩
  rcases ph with _ | _ | _ | _ | p | p | r <;>
    rcases o with _ | _ | _ | _ <;>
    rcases ws with _ | wsh <;>
    rcases wc with _ | wch <;>
    (try cases p) <;>
    simp_all [listenStep, inLoop, nonTermOutcome]

theorem listenRun_inLoop (trace : List (Outcome × Nat)) :
    ∀ s : SupState, inLoop s.phase = true → okTrace s trace = true →
      inLoop (listenRun s trace).phase = true := by
  induction trace with
  | nil => intro s hs _; exact hs
  | cons p rest ih =>
    rcases p with ⟨o, t⟩
    intro s hs hok
    rw [okTrace, Bool.and_eq_true] at hok
    exact ih _ (listenStep_inLoop s o t hs hok.1) hok.2

set_option maxHeartbeats 1000000 in
theorem listenStep_cancelTerminal (s : SupState) (o : Outcome) (now : Nat)
    (h : cancelTerminal s.phase = true) :
    cancelTerminal (listenStep s o now).phase = true := by
  rcases s with ⟨ph, ws, wc, nh, ls, lr, tp, ev⟩
  rcases ph with _ | _ | _ | _ | p | p | r <;>
    rcases o with _ | _ | _ | _ <;>
    rcases ws with _ | wsh <;>
    rcases wc with _ | wch <;>
    (try cases p) <;>
    simp_all [listenStep, cancelTerminal]

theorem listenRun_cancelTerminal (trace : List (Outcome × Nat)) :
    ∀ s : SupState, cancelTerminal s.phase = true →
      cancelTerminal (listenRun s trace).phase = true := by
  induction trace with
  | nil => intro s hs; exact hs
  | cons p rest ih =>
    rcases p with ⟨o, t⟩
    intro s hs
    exact ih _ (listenStep_cancelTerminal s o t hs)

set_option maxHeartbeats 1000000 in
theorem listenStep_lastRecv (s : SupState) (o : Outcome) (now : Nat) :
    (listenStep s o now).lastRecv = s.lastRecv := by
  rcases s with ⟨ph, ws, wc, nh, ls, lr, tp, ev⟩
  rcases ph with _ | _ | _ | _ | p | p | r <;>
    rcases o with _ | _ | _ | _ <;>
    rcases ws with _ | wsh <;>
    rcases wc with _ | wch <;>
    (try cases p) <;>
    simp [listenStep]

theorem listenRun_lastRecv (trace : List (Outcome × Nat)) :
    ∀ s : SupState, (listenRun s trace).lastRecv = s.lastRecv := by
  induction trace with
  | nil => intro s; rfl
  | cons p rest ih =>
    rcases p with ⟨o, t⟩
    intro s
    rw [listenRun, ih, listenStep_lastRecv]

set_option maxHeartbeats 1000000 in
theorem listenStep_no_subscribe (s : SupState) (o : Outcome) (now : Nat)
    (h : Nat) (pr : String)
    (hmem : SupEvent.sentSubscribe h pr ∉ s.events) :
    SupEvent.sentSubscribe h pr ∉ (listenStep s o now).events := by
  rcases s with ⟨ph, ws, wc, nh, ls, lr, tp, ev⟩
  rcases ph with _ | _ | _ | _ | p | p | r <;>
    rcases o with _ | _ | _ | _ <;>
    rcases ws with _ | wsh <;>
    rcases wc with _ | wch <;>
    (try cases p) <;>
    simp_all [listenStep]

theorem listenRun_no_subscribe (trace : List (Outcome × Nat)) :
    ∀ s : SupState, ∀ h : Nat, ∀ pr : String,
      SupEvent.sentSubscribe h pr ∉ s.events →
      SupEvent.sentSubscribe h pr ∉ (listenRun s trace).events := by
  induction trace with
  | nil => intro s h pr hmem; exact hmem
  | cons p rest ih =>
    rcases p with ⟨o, t⟩
    intro s h pr hmem
    exact ih _ h pr (listenStep_no_subscribe s o t h pr hmem)

theorem connected_mem_append (ev : List SupEvent) (e : SupEvent)
    (h5 : ∀ h, SupEvent.connected h ∈ ev → h = 0)
    (he : ∀ h, SupEvent.connected h = e → h = 0) :
    ∀ h, SupEvent.connected h ∈ ev ++ [e] → h = 0 := by
  intro h hm
  rcases List.mem_append.mp hm with hm | hm
  · exact h5 h hm
  · exact he h (List.mem_singleton.mp hm)

theorem listenStep_handleInv (s : SupState) (o : Outcome) (now : Nat)
    (h : handleInv s) : handleInv (listenStep s o now) := by
  obtain ⟨h1, h2, h3, h4, h5⟩ := h
  rcases s with ⟨ph, ws, wc, nh, ls, lr, tp, ev⟩
  rcases ph with _ | _ | _ | _ | p | p | r
  · -- getAssistant
    rcases o with _ | _ | _ | _
    · rcases wc with _ | wch
      · have hnh : nh = 0 := h2 rfl
        subst hnh
        refine ⟨?_, ?_, fun hh e => (Option.some.inj e).symm,
          fun hh e => (Option.some.inj e).symm, h5⟩
        · show 0 + 1 ≤ 1
          omega
        · intro hx
          exact Option.noConfusion hx
      · exact ⟨h1, h2, h3,
          fun hh e => ((Option.some.inj e).symm).trans (h3 wch rfl), h5⟩
    · exact ⟨h1, h2, h3, h4, h5⟩
    · exact ⟨h1, h2, h3, h4, h5⟩
    · exact ⟨h1, h2, h3, h4, h5⟩
  · -- connect
    rcases o with _ | _ | _ | _
    · refine ⟨h1, h2, h3, h4, connected_mem_append ev _ h5 ?_⟩
      intro hh e
      injection e with e'
      rcases ws with _ | wsh
      · simpa using e'
      · simp only [Option.getD_some] at e'
        rw [e']
        exact h4 wsh rfl
    · exact ⟨h1, h2, h3, h4, h5⟩
    · exact ⟨h1, h2, h3, h4, h5⟩
    · exact ⟨h1, h2, h3, h4, h5⟩
  · -- authenticate
    rcases o with _ | _ | _ | _
    · exact ⟨h1, h2, h3, h4, connected_mem_append ev _ h5 (fun hh e => nomatch e)⟩
    · exact ⟨h1, h2, h3, h4, h5⟩
    · exact ⟨h1, h2, h3, h4, h5⟩
    · exact ⟨h1, h2, h3, h4, h5⟩
  · -- frameLoop
    rcases o with _ | _ | _ | _ <;> exact ⟨h1, h2, h3, h4, h5⟩
  · -- cleanup
    rcases o with _ | _ | _ | _ <;> rcases ws with _ | wsh
    · exact ⟨h1, h2, h3, h4, h5⟩
    · exact ⟨h1, h2, h3, h4, connected_mem_append ev _ h5 (fun hh e => nomatch e)⟩
    · exact ⟨h1, h2, h3, h4, h5⟩
    · exact ⟨h1, h2, h3, h4, h5⟩
    · exact ⟨h1, h2, h3, h4, h5⟩
    · exact ⟨h1, h2, h3, h4, connected_mem_append ev _ h5 (fun hh e => nomatch e)⟩
    · exact ⟨h1, h2, h3, h4, h5⟩
    · exact ⟨h1, h2, h3, h4, h5⟩
  · -- sleepDelay
    rcases o with _ | _ | _ | _ <;> (try cases p)
    · exact ⟨h1, h2, h3, h4, connected_mem_append ev _ h5 (fun hh e => nomatch e)⟩
    · exact ⟨h1, h2, h3, h4, connected_mem_append ev _ h5 (fun hh e => nomatch e)⟩
    · exact ⟨h1, h2, h3, h4, h5⟩
    · exact ⟨h1, h2, h3, h4, h5⟩
    · exact ⟨h1, h2, h3, h4, connected_mem_append ev _ h5 (fun hh e => nomatch e)⟩
    · exact ⟨h1, h2, h3, h4, connected_mem_append ev _ h5 (fun hh e => nomatch e)⟩
    · exact ⟨h1, h2, h3, h4, h5⟩
    · exact ⟨h1, h2, h3, h4, h5⟩
  · -- done
    exact ⟨h1, h2, h3, h4, h5⟩

theorem listenRun_handleInv (trace : List (Outcome × Nat)) :
    ∀ s : SupState, handleInv s → handleInv (listenRun s trace) := by
  induction trace with
  | nil => intro s hs; exact hs
  | cons p rest ih =>
    rcases p with ⟨o, t⟩
    intro s hs
    exact ih _ (listenStep_handleInv s o t hs)

/-! ## Claim theorems -/

/-- Claim C1: for every REST request, the authentication header produced by
`header_for_authentication` is the pair `("Authorization", v)` with
`v = "HS256 " ++ base64(api_key ++ ":" ++ digest ++ ":" ++ timestamp)`, where
`digest` is the HMAC-SHA256 hex digest under `secret_key` of the concatenation,
in order and with no extra delimiters, of: the HTTP method name, the URL path,
then (only if a query string is present) the literal `"?"` followed by the raw
query string, then the raw request body when present (an absent or empty body
contributes nothing), then the millisecond timestamp taken at call time. -/
theorem header_for_authentication_spec
    (hmacSha256Hex : String → String → String) (b64encode : String → String)
    (apiKey secretKey method path query : String) (body : Option String)
    (timestampMs : Nat) :
    header_for_authentication hmacSha256Hex b64encode apiKey secretKey
        method path query body timestampMs =
      ("Authorization",
       "HS256 " ++ b64encode (apiKey ++ ":" ++
          hmacSha256Hex secretKey
            (method ++ path ++ (if query ≠ "" then "?" ++ query else "") ++
              body.getD "" ++ toString timestampMs) ++
          ":" ++ toString timestampMs)) := by
  unfold header_for_authentication generate_signature
  rcases body with _ | d
  · by_cases hq : query = "" <;>
      simp [hq, joinWith, str_append_assoc, String.append_empty,
        String.empty_append]
  · by_cases hq : query = "" <;> by_cases hd : d = "" <;>
      simp [hq, hd, joinWith, str_append_assoc, String.append_empty,
        String.empty_append]

/-- Claim C3: a non-cancellation error at any step of the supervisor loop
(getting the assistant, connect, authenticate-send, frame processing) sends
control to the `finally` cleanup with no exception in flight; the cleanup
closes the Transport Handle (a no-op when the local `ws` is null), then the
fixed 5-second reconnect sleep runs, then a new connect cycle begins; and over
any trace that contains no cancellation (and in which the idempotent cleanup
close and the plain sleep themselves do not raise), the loop never reaches an
exit state. -/
theorem listen_reconnects_on_error (s : SupState) (now : Nat) :
    ((s.phase = Phase.getAssistant ∨ s.phase = Phase.connect ∨
        s.phase = Phase.authenticate ∨ s.phase = Phase.frameLoop) →
      (listenStep s Outcome.err now).phase = Phase.cleanup Pending.nothing)
  ∧ (∀ p, s.phase = Phase.cleanup p → s.ws = none →
      listenStep s Outcome.ok now = { s with phase := Phase.sleepDelay p })
  ∧ (∀ p h, s.phase = Phase.cleanup p → s.ws = some h →
      listenStep s Outcome.ok now =
        { s with phase := Phase.sleepDelay p
                 events := s.events ++ [SupEvent.disconnected h] })
  ∧ (s.phase = Phase.sleepDelay Pending.nothing →
      listenStep s Outcome.ok now =
        { s with phase := Phase.getAssistant
                 events := s.events ++ [SupEvent.slept RECONNECT_DELAY] })
  ∧ (∀ trace : List (Outcome × Nat), inLoop s.phase = true →
      okTrace s trace = true → isDone (listenRun s trace).phase = false) := by
  rcases s with ⟨ph, ws, wc, nh, ls, lr, tp, ev⟩
  refine ⟨?_, ?_, ?_, ?_, ?_⟩
  · intro hph
    rcases hph with h | h | h | h <;> simp_all [listenStep]
  · intro p hp hw
    dsimp only at hp hw
    subst hp
    subst hw
    rfl
  · intro p h hp hw
    dsimp only at hp hw
    subst hp
    subst hw
    rfl
  · intro hp
    dsimp only at hp
    subst hp
    rfl
  · intro trace hin hok
    exact inLoop_not_done _ (listenRun_inLoop trace _ hin hok)

/-- Claim C3 witness: concrete instances — an error at the first step of a
fresh data source lands in the no-exception cleanup, and a trace that fails
its first connect cycle and retries has not terminated. -/
theorem listen_reconnects_on_error_witness :
    (listenStep (mkDataSource none) Outcome.err 0).phase = Phase.cleanup Pending.nothing
  ∧ isDone (listenRun (mkDataSource none)
      [(Outcome.err, 0), (Outcome.ok, 0), (Outcome.ok, 0), (Outcome.err, 0)]).phase = false := by
  have t := listen_reconnects_on_error (mkDataSource none) 0
  exact ⟨t.1 (Or.inl rfl),
    t.2.2.2.2 [(Outcome.err, 0), (Outcome.ok, 0), (Outcome.ok, 0), (Outcome.err, 0)]
      rfl (by decide)⟩

/-- Claim C4 (amended): a cancellation delivered at any suspension point of
the `try` body is routed to `except asyncio.CancelledError: raise` — never to
the generic `except Exception` reconnect handler — so the cleanup runs with
the cancellation still in flight; the cleanup closes the Transport Handle
before the coroutine returns; once the cancellation is in flight the loop
body is never re-entered (no reconnect attempt happens); BUT, contrary to the
original claim, the unconditional `finally` also runs the fixed 5-second
reconnect sleep on the cancellation path before the coroutine exits. -/
theorem cancellation_unwinds_with_delay (s : SupState) (now : Nat) (h : Nat) :
    ((s.phase = Phase.getAssistant ∨ s.phase = Phase.connect ∨
        s.phase = Phase.authenticate ∨ s.phase = Phase.frameLoop) →
      (listenStep s Outcome.cancelled now).phase = Phase.cleanup Pending.cancel)
  ∧ (s.phase = Phase.cleanup Pending.cancel → s.ws = some h →
      listenStep s Outcome.ok now =
        { s with phase := Phase.sleepDelay Pending.cancel
                 events := s.events ++ [SupEvent.disconnected h] })
  ∧ (s.phase = Phase.sleepDelay Pending.cancel →
      listenStep s Outcome.ok now =
        { s with phase := Phase.done ExitReason.cancelled
                 events := s.events ++ [SupEvent.slept RECONNECT_DELAY] })
  ∧ (s.phase = Phase.sleepDelay Pending.nothing →
      (listenStep s Outcome.cancelled now).phase = Phase.done ExitReason.cancelled)
  ∧ (∀ trace : List (Outcome × Nat), cancelTerminal s.phase = true →
      cancelTerminal (listenRun s trace).phase = true) := by
  rcases s with ⟨ph, ws, wc, nh, ls, lr, tp, ev⟩
  refine ⟨?_, ?_, ?_, ?_, ?_⟩
  · intro hph
    rcases hph with hh | hh | hh | hh <;> simp_all [listenStep]
  · intro hp hw
    dsimp only at hp hw
    subst hp
    subst hw
    rfl
  · intro hp
    dsimp only at hp
    subst hp
    rfl
  · intro hp
    dsimp only at hp
    subst hp
    rfl
  · intro trace hct
    exact listenRun_cancelTerminal trace _ hct

/-- Claim C4 witness: concrete instances — cancellation at the first awaited
operation is re-raised (not swallowed), and completing the forced `finally`
sleep with a cancellation pending exits the coroutine as cancelled. -/
theorem cancellation_unwinds_with_delay_witness :
    (listenStep (mkDataSource none) Outcome.cancelled 0).phase = Phase.cleanup Pending.cancel
  ∧ (listenStep
        { phase := Phase.sleepDelay Pending.cancel, ws := some 0, wsCache := some 0,
          nextHandle := 1, lastSent := 0, lastRecv := 0, tradingPairs := [], events := [] }
        Outcome.ok 0).phase = Phase.done ExitReason.cancelled := by
  have t1 := cancellation_unwinds_with_delay (mkDataSource none) 0 0
  have t2 := cancellation_unwinds_with_delay
    ⟨Phase.sleepDelay Pending.cancel, some 0, some 0, 1, 0, 0, [], []⟩ 0 0
  refine ⟨t1.1 (Or.inl rfl), ?_⟩
  rw [t2.2.2.1 rfl]

/-- Claim C4 counterexample: the claim "no post-failure reconnect delay runs
on the cancellation path" is false on the code.  Concrete run: connect and
login succeed, cancellation arrives in the frame loop, cleanup and the
`finally` sleep complete — the coroutine exits as cancelled AND the 5-second
reconnect sleep ran on that path. -/
theorem cancellation_delay_counterexample :
    (listenRun (mkDataSource none)
        [(Outcome.ok, 0), (Outcome.ok, 0), (Outcome.ok, 1), (Outcome.cancelled, 2),
         (Outcome.ok, 2), (Outcome.ok, 2)]).phase = Phase.done ExitReason.cancelled
  ∧ SupEvent.slept RECONNECT_DELAY ∈
      (listenRun (mkDataSource none)
        [(Outcome.ok, 0), (Outcome.ok, 0), (Outcome.ok, 1), (Outcome.cancelled, 2),
         (Outcome.ok, 2), (Outcome.ok, 2)]).events := by
  decide

/-- Claim C5: `_subscribe_channels` would send exactly one subscribe frame per
configured trading pair, every frame carrying `method = SPOT_SUBSCRIBE` and
the same fixed `id = SPOT_STREAM_ID` (= 21); but the supervisor loop never
invokes it — no run of `listen_for_user_stream`, over any trace, ever emits a
subscribe frame.  (This supports the code-bug verdict: the login step is
followed directly by the frame loop.) -/
theorem subscribe_channels_dead_code (pairs : List String)
    (tp : Option (List String)) (trace : List (Outcome × Nat)) (h : Nat)
    (pr : String) :
    (subscribe_channels pairs).length = pairs.length
  ∧ (∀ f ∈ subscribe_channels pairs,
      f.method = SPOT_SUBSCRIBE ∧ f.id = SPOT_STREAM_ID)
  ∧ SupEvent.sentSubscribe h pr ∉ (listenRun (mkDataSource tp) trace).events := by
  refine ⟨List.length_map _ _, ?_, ?_⟩
  · intro f hf
    rcases List.mem_map.mp hf with ⟨x, _, rfl⟩
    exact ⟨rfl, rfl⟩
  · exact listenRun_no_subscribe trace (mkDataSource tp) h pr (List.not_mem_nil _)

/-- Claim C5 witness: one configured trading pair; the subscribe frame list
the dead helper would send has length one and the claimed shape, and a cycle
whose connect and login both succeed emits no subscribe frame. -/
theorem subscribe_channels_dead_code_witness :
    (subscribe_channels ["BTC-USDT"]).length = 1
  ∧ (({ method := SPOT_SUBSCRIBE, id := SPOT_STREAM_ID } : SubscribeFrame).method
        = SPOT_SUBSCRIBE
      ∧ ({ method := SPOT_SUBSCRIBE, id := SPOT_STREAM_ID } : SubscribeFrame).id
        = SPOT_STREAM_ID)
  ∧ SupEvent.sentSubscribe 0 "BTC-USDT" ∉
      (listenRun (mkDataSource (some ["BTC-USDT"]))
        [(Outcome.ok, 0), (Outcome.ok, 0), (Outcome.ok, 0)]).events := by
  have t := subscribe_channels_dead_code ["BTC-USDT"] (some ["BTC-USDT"])
    [(Outcome.ok, 0), (Outcome.ok, 0), (Outcome.ok, 0)] 0 "BTC-USDT"
  exact ⟨t.1, t.2.1 _ (by decide), t.2.2⟩

/-- Claim C6 (amended): a `spot_order`/`spot_orders`/`spot_balance` frame with
a params list of `n` elements pushes exactly `n` values, one per element, in
list order; a frame with no method key pushes nothing and raises nothing; a
frame with any other method AND a params key pushes nothing and raises
nothing; BUT, contrary to the original claim, a frame bearing a method key
without a params key raises a `KeyError` (the source reads `data["params"]`
before dispatching on the method). -/
theorem process_ws_message_dispatch {α β : Type} (fo fb : α → β) (m : String)
    (l : List α) (pOpt : Option (List α)) :
    ((m = "spot_order" ∨ m = "spot_orders") →
      process_ws_message (fun x => Except.ok (fo x)) (fun x => Except.ok (fb x))
        { method := some m, params := some l } = (l.map fo, none))
  ∧ process_ws_message (fun x => Except.ok (fo x)) (fun x => Except.ok (fb x))
      { method := some "spot_balance", params := some l } = (l.map fb, none)
  ∧ process_ws_message (fun x => Except.ok (fo x)) (fun x => Except.ok (fb x))
      { method := none, params := pOpt } = ([], none)
  ∧ (m ≠ "spot_order" → m ≠ "spot_orders" → m ≠ "spot_balance" →
      process_ws_message (fun x => Except.ok (fo x)) (fun x => Except.ok (fb x))
        { method := some m, params := some l } = ([], none))
  ∧ process_ws_message (fun x => Except.ok (fo x)) (fun x => Except.ok (fb x))
      { method := some m, params := none } = ([], some "KeyError") := by
  refine ⟨?_, ?_, rfl, ?_, rfl⟩
  · intro hm
    dsimp only [process_ws_message]
    rw [if_pos hm]
    exact handle_spot_order_map fo l
  · dsimp only [process_ws_message]
    have hno : ¬(("spot_balance" : String) = "spot_order"
        ∨ ("spot_balance" : String) = "spot_orders") := by decide
    have hyes : ("spot_balance" : String) = "spot_balance" := rfl
    rw [if_neg hno, if_pos hyes]
    exact handle_spot_balance_map fb l
  · intro hm1 hm2 hm3
    dsimp only [process_ws_message]
    rw [if_neg (not_or.mpr ⟨hm1, hm2⟩), if_neg hm3]

/-- Claim C6 witness: a `spot_orders` frame with two elements pushes exactly
the two normalized values, in order. -/
theorem process_ws_message_dispatch_witness :
    process_ws_message (fun n : Nat => Except.ok (n + 1))
        (fun n : Nat => Except.ok (n + 1))
        { method := some "spot_orders", params := some [5, 7] } = ([6, 8], none) :=
  (process_ws_message_dispatch (fun n => n + 1) (fun n => n + 1) "spot_orders"
      [5, 7] none).1 (Or.inr rfl)

/-- Claim C6 counterexample: the claim "for every frame with no method field
or with any other method value, zero values are pushed and no error is
raised" is false on the code at the concrete frame `{"method": "unknown"}`
(no params key): the router raises a `KeyError`. -/
theorem process_missing_params_counterexample :
    process_ws_message (fun n : Nat => Except.ok n) (fun n : Nat => Except.ok n)
      { method := some "unknown", params := none } = ([], some "KeyError")
  ∧ (process_ws_message (fun n : Nat => Except.ok n) (fun n : Nat => Except.ok n)
      { method := some "unknown", params := none }).2 ≠ none := by
  decide

/-- Claim C7 (amended): the router has no element-level catch.  When one
element of a `spot_balance` params list fails normalization, the elements
before it have already been pushed (in order), the failing element and every
later element are NOT pushed, and the error propagates out of the frame
handler; the supervisor's generic `except Exception` handler then receives
it, i.e. the connection is torn down and reconnected rather than the frame
continuing. -/
theorem spot_balance_element_failure {α β : Type}
    (convertOrder convertBalance : α → Except String β) (g : α → β)
    (l1 l2 : List α) (x : α) (e : String)
    (h1 : ∀ y ∈ l1, convertBalance y = Except.ok (g y))
    (hx : convertBalance x = Except.error e) (s : SupState) (now : Nat)
    (hs : s.phase = Phase.frameLoop) :
    process_ws_message convertOrder convertBalance
      { method := some "spot_balance", params := some (l1 ++ x :: l2) }
      = (l1.map g, some e)
  ∧ (listenStep s Outcome.err now).phase = Phase.cleanup Pending.nothing := by
  constructor
  · dsimp only [process_ws_message]
    have hno : ¬(("spot_balance" : String) = "spot_order"
        ∨ ("spot_balance" : String) = "spot_orders") := by decide
    have hyes : ("spot_balance" : String) = "spot_balance" := rfl
    rw [if_neg hno, if_pos hyes]
    exact handle_spot_balance_split convertBalance g l1 l2 x e h1 hx
  · rcases s with ⟨ph, ws, wc, nh, ls, lr, tp, ev⟩
    dsimp only at hs
    subst hs
    rfl

/-- Claim C7 witness: a three-element balance frame whose middle element
fails pushes only the first element's value, and the escaping error at the
frame loop lands in the supervisor's generic handler. -/
theorem spot_balance_element_failure_witness :
    process_ws_message (fun n : Nat => Except.ok n)
        (fun n : Nat => if n = 4 then Except.error "bad" else Except.ok n)
        { method := some "spot_balance", params := some [1, 4, 9] } = ([1], some "bad")
  ∧ (listenStep
        { phase := Phase.frameLoop, ws := some 0, wsCache := some 0, nextHandle := 1,
          lastSent := 0, lastRecv := 0, tradingPairs := [], events := [] }
        Outcome.err 0).phase = Phase.cleanup Pending.nothing := by
  have h1 : ∀ y ∈ [1],
      (fun n : Nat => if n = 4 then Except.error "bad" else Except.ok n) y
        = Except.ok ((fun n : Nat => n) y) := by
    intro y hy
    have := List.mem_singleton.mp hy
    subst this
    rfl
  have t := spot_balance_element_failure (fun n : Nat => Except.ok n)
    (fun n : Nat => if n = 4 then Except.error "bad" else Except.ok n)
    (fun n : Nat => n) [1] [9] 4 "bad" h1 rfl
    ⟨Phase.frameLoop, some 0, some 0, 1, 0, 0, [], []⟩ 0 rfl
  exact ⟨t.1, t.2⟩

/-- Claim C7 counterexample: the claim "skips only the failing element, still
pushes the normalized results of every other element" is false on the code:
with elements `[1, 2, 3]` and a normalizer failing on `2`, only element `1`
is pushed (element `3` is lost) and the error propagates. -/
theorem spot_balance_abort_counterexample :
    process_ws_message (fun n : Nat => Except.ok n)
        (fun n : Nat => if n = 2 then Except.error "MalformedPayload" else Except.ok n)
        { method := some "spot_balance", params := some [1, 2, 3] }
      = ([1], some "MalformedPayload")
  ∧ (process_ws_message (fun n : Nat => Except.ok n)
        (fun n : Nat => if n = 2 then Except.error "MalformedPayload" else Except.ok n)
        { method := some "spot_balance", params := some [1, 2, 3] }).1 ≠ [1, 3] := by
  decide

/-- Claim C8: on expiry of the heartbeat deadline in the frame loop
(`asyncio.TimeoutError` from `asyncio.wait_for`), the supervisor records a
fresh last-outbound-activity timestamp and stays in the frame loop: same
phase, same events (no disconnect, no reconnect, nothing dropped), same
handle, and the deadline is re-armed to the full heartbeat interval. -/
theorem heartbeat_timeout_resets_deadline (s : SupState) (now : Nat)
    (hs : s.phase = Phase.frameLoop) :
    listenStep s Outcome.timeout now = { s with lastSent := now }
  ∧ (listenStep s Outcome.timeout now).phase = Phase.frameLoop
  ∧ (listenStep s Outcome.timeout now).events = s.events
  ∧ (listenStep s Outcome.timeout now).ws = s.ws
  ∧ seconds_until_next_ping (listenStep s Outcome.timeout now) now
      = (WS_HEARTBEAT_TIME_INTERVAL : Int) := by
  rcases s with ⟨ph, ws, wc, nh, ls, lr, tp, ev⟩
  dsimp only at hs
  subst hs
  refine ⟨rfl, rfl, rfl, rfl, ?_⟩
  simp [seconds_until_next_ping, listenStep]

/-- Claim C8 witness: a concrete frame-loop state at clock 7 — the timeout
step re-records the timestamp and stays in the frame loop. -/
theorem heartbeat_timeout_resets_deadline_witness :
    (listenStep
        { phase := Phase.frameLoop, ws := some 0, wsCache := some 0, nextHandle := 1,
          lastSent := 3, lastRecv := 0, tradingPairs := [], events := [] }
        Outcome.timeout 7).lastSent = 7
  ∧ (listenStep
        { phase := Phase.frameLoop, ws := some 0, wsCache := some 0, nextHandle := 1,
          lastSent := 3, lastRecv := 0, tradingPairs := [], events := [] }
        Outcome.timeout 7).phase = Phase.frameLoop := by
  have t := heartbeat_timeout_resets_deadline
    ⟨Phase.frameLoop, some 0, some 0, 1, 3, 0, [], []⟩ 7 rfl
  exact ⟨by rw [t.1], t.2.1⟩

/-- Claim C9 (amended): across the whole lifetime of one data source the
factory is asked for a websocket assistant at most once, and every connect —
in every reconnect cycle — uses that same single cached instance (number 0):
`_get_ws_assistant` creates a fresh instance only when `self._ws_assistant`
is `None`, and no reconnect cycle ever clears the cache, so later cycles
reuse the earlier cycle's instance rather than a fresh one. -/
theorem ws_assistant_cached_across_cycles (tp : Option (List String))
    (trace : List (Outcome × Nat)) (h : Nat) :
    (listenRun (mkDataSource tp) trace).nextHandle ≤ 1
  ∧ (SupEvent.connected h ∈ (listenRun (mkDataSource tp) trace).events → h = 0) := by
  have inv : handleInv (listenRun (mkDataSource tp) trace) :=
    listenRun_handleInv trace (mkDataSource tp)
      ⟨Nat.zero_le 1, fun _ => rfl, fun hh e => Option.noConfusion e,
        fun hh e => Option.noConfusion e,
        fun hh hm => absurd hm (List.not_mem_nil _)⟩
  exact ⟨inv.1, inv.2.2.2.2 h⟩

/-- Claim C9 witness: a successful first connect uses instance 0, and the
factory has been consulted at most once. -/
theorem ws_assistant_cached_across_cycles_witness :
    (listenRun (mkDataSource none) [(Outcome.ok, 0), (Outcome.ok, 0)]).nextHandle ≤ 1
  ∧ (0 : Nat) = 0 :=
  ⟨(ws_assistant_cached_across_cycles none [(Outcome.ok, 0), (Outcome.ok, 0)] 0).1,
   (ws_assistant_cached_across_cycles none [(Outcome.ok, 0), (Outcome.ok, 0)] 0).2
     (by decide)⟩

/-- Claim C9 counterexample: the claim "the Transport Handle instance used in
the later cycle is a fresh instance ... distinct from the instance used in
the earlier cycle" is false on the code.  Concrete run: cycle one connects
handle 0, authentication fails, the handle is disconnected, the reconnect
sleep runs, and the second cycle connects THE SAME handle 0 again. -/
theorem ws_assistant_fresh_counterexample :
    (listenRun (mkDataSource (some ["BTC-USDT"]))
        [(Outcome.ok, 0), (Outcome.ok, 0), (Outcome.err, 0), (Outcome.ok, 0),
         (Outcome.ok, 0), (Outcome.ok, 0), (Outcome.ok, 0)]).events
      = [SupEvent.connected 0, SupEvent.disconnected 0,
         SupEvent.slept RECONNECT_DELAY, SupEvent.connected 0] := by
  decide

/-- Claim C10: over every sequence of supervisor operations from construction
onward, the public `last_recv_time` accessor returns 0: `_last_recv_time` is
set to 0.0 in `__init__` and no operation in this module ever writes it. -/
theorem last_recv_time_always_zero (tp : Option (List String))
    (trace : List (Outcome × Nat)) :
    last_recv_time (listenRun (mkDataSource tp) trace) = 0
  ∧ (mkDataSource tp).lastRecv = 0 := by
  constructor
  · rw [last_recv_time, listenRun_lastRecv]
    rfl
  · rfl

/-- Claim C2: every call of the login signer returns the payload
`{method := "login", params := {type := "HS256", api_key, timestamp, window
:= 10000, signature}}`, where `signature` is the HMAC-SHA256 hex digest under
`secret_key` of the decimal timestamp concatenated with the decimal window
(`"10000"`) with no separator, and `timestamp` is the millisecond timestamp
taken at call time. -/
theorem ws_authenticate_spec (hmacSha256Hex : String → String → String)
    (apiKey secretKey : String) (timestampMs : Nat) :
    ws_authenticate hmacSha256Hex apiKey secretKey timestampMs =
      { method := "login"
        params :=
          { type := "HS256"
            api_key := apiKey
            timestamp := timestampMs
            window := 10000
            signature :=
              hmacSha256Hex secretKey (toString timestampMs ++ "10000") } } := by
  unfold ws_authenticate
  norm_num
  rfl

end Changelly
